import Mathlib

/-!
Verification of the commit-retry engine and commit-gated checkpoint manager
of `target-s3tables` (`src/target_s3tables/retry.py` and
`src/target_s3tables/target.py`), as a shallow embedding in Lean 4.

Python strings are modelled as Lean `String`s, Python `int` as `Int`,
Python `float` arithmetic as exact rational (`ℚ`) arithmetic, and the
consumption of randomness in the backoff jitter as an explicit extra
argument (the sampled uniform draw).  Exceptions are modelled as a record
of the data the classifiers inspect: class name, `str(exc)` message,
`status_code` attributes, and the linear `__cause__`/`__context__` chain.
-/

namespace TargetS3Tables

/-! ## String helpers (Python `str.lower` and the `in` substring test) -/

/-- Python `str.lower()` restricted to the ASCII letters that actually occur
in the classifier patterns. -/
def strLower (s : String) : String :=
  ⟨s.data.map Char.toLower⟩

/-- `charsStartsWith pat l` is true iff `pat` is an initial segment of `l`. -/
def charsStartsWith : List Char → List Char → Bool
  | [], _ => true
  | _ :: _, [] => false
  | a :: as, b :: bs => a == b && charsStartsWith as bs

/-- `charsInfixOf pat l` is true iff `pat` occurs contiguously inside `l`
(Python's `pat in l` on strings). -/
def charsInfixOf (pat : List Char) : List Char → Bool
  | [] => charsStartsWith pat []
  | b :: bs => charsStartsWith pat (b :: bs) || charsInfixOf pat bs

/-- Python's `pat in s` substring test. -/
def strContains (s pat : String) : Bool :=
  charsInfixOf pat.data s.data

/-! ## Exceptions

`ExcCore` holds the fields of one exception object that the classifiers in
`retry.py` inspect; an `Exc` is an exception together with its (linear,
cycle-free) `__cause__`/`__context__` chain, exactly what
`_exception_chain` iterates over. -/

structure ExcCore where
  className : String
  message : String
  statusCode : Option Int
  responseStatusCode : Option Int
deriving DecidableEq, Repr

structure Exc where
  core : ExcCore
  causes : List ExcCore
deriving DecidableEq, Repr

/-- `_exception_chain(exc)`: the exception followed by its cause chain. -/
def _exception_chain (exc : Exc) : List ExcCore :=
  exc.core :: exc.causes

/-! ## Classifier constants (module-level tuples in `retry.py`) -/

def _UNKNOWN_STATE_PATTERNS : List String :=
  ["commit state unknown", "unknown commit state", "commitstateunknown"]

/-- Verbatim from the source, including the `"ssLError"` entry whose capital
letter is part of the program text. -/
def _NETWORK_ERROR_NAMES : List String :=
  ["timeout", "connectionerror", "connectionreset", "connecttimeout",
   "readtimeout", "chunkedencodingerror", "protocolerror", "ssLError"]

/-- `_is_commit_failed_exception`: the class-name comparison branch (the
optional `isinstance` branch tests against a class of the same name, so it
is subsumed by the name test). -/
def _is_commit_failed_exception (exc : Exc) : Bool :=
  strLower exc.core.className == "commitfailedexception"

/-- `_is_commit_state_unknown_exception`. -/
def _is_commit_state_unknown_exception (exc : Exc) : Bool :=
  strLower exc.core.className == "commitstateunknownexception" ||
  strLower exc.core.className == "commitstateunknownerror"

/-- `_is_transport_or_server_error`. -/
def _is_transport_or_server_error (exc : Exc) : Bool :=
  let statusCode :=
    match exc.core.statusCode with
    | some c => some c
    | none => exc.core.responseStatusCode
  (match statusCode with
   | some c => c == 500 || c == 502 || c == 503 || c == 504
   | none => false) ||
  (_exception_chain exc).any fun inner =>
    let name := strLower inner.className
    let message := strLower inner.message
    _NETWORK_ERROR_NAMES.any (fun token => strContains name token) ||
    strContains message "timed out" || strContains message "connection reset" ||
    strContains message "connection aborted" || strContains message "broken pipe"

/-- `is_retryable_commit_failed`. -/
def is_retryable_commit_failed (exc : Exc) : Bool :=
  if !_is_commit_failed_exception exc then false
  else
    let message := strLower exc.core.message
    if message == "" then false
    else if strContains message "branch" &&
        (strContains message "has changed" ||
         strContains message "was created concurrently") then true
    else if strContains message "expected id" &&
        (strContains message "branch" || strContains message "snapshot") then true
    else if strContains message "expected snapshot" then true
    else if strContains message "reference has changed" then true
    else if strContains message "requirement failed" &&
        (strContains message "branch" || strContains message "ref") then true
    else false

/-- `is_unknown_commit_state`. -/
def is_unknown_commit_state (exc : Exc) : Bool :=
  if _is_commit_failed_exception exc then false
  else if _is_commit_state_unknown_exception exc then true
  else if _UNKNOWN_STATE_PATTERNS.any
      (fun token => strContains (strLower exc.core.message) token) then true
  else _is_transport_or_server_error exc

/-! ## Retry configuration (`CommitRetryConfig`) -/

structure CommitRetryConfig where
  num_retries : Int
  min_wait_ms : Int
  max_wait_ms : Int
  total_timeout_ms : Int
  backoff_multiplier : ℚ
  jitter : ℚ
  status_check_num_retries : Int
  status_check_min_wait_ms : Int
  status_check_max_wait_ms : Int
  max_attempts_override : Option Int := none
deriving DecidableEq, Repr

/-- `CommitRetryConfig.max_attempts`. -/
def CommitRetryConfig.max_attempts (cfg : CommitRetryConfig) : Int :=
  let attempts := max 1 (cfg.num_retries + 1)
  match cfg.max_attempts_override with
  | some o => min attempts (max 1 o)
  | none => attempts

/-! ## Backoff calculator (`compute_backoff`)

The `u` argument is the value `random.uniform(-jitter, jitter)` drawn when
`jitter` is truthy; the function consumes no randomness otherwise. -/

def compute_backoff (attempt : Int) (min_wait_ms max_wait_ms : Int)
    (multiplier : ℚ) (jitter : ℚ) (u : ℚ) : ℚ :=
  let a : Int := max 1 attempt
  let base_ms : ℚ := (min_wait_ms : ℚ) * multiplier ^ (a - 1).toNat
  let base_ms : ℚ := min base_ms (max_wait_ms : ℚ)
  let jitter_factor : ℚ := if jitter = 0 then 1 else 1 + u
  let delay_ms : ℚ := max 0 (base_ms * jitter_factor)
  delay_ms / 1000

/-! ## Commit retry engine (`run_with_commit_retries`)

The engine is embedded as a pure, fuel-indexed recursion.  Effects are
made explicit:
* `commit n` is the outcome of `commit_fn` on attempt number `n` (1-based);
* `sc` is the optional `status_check_fn`, indexed by the 1-based global
  count of status-check invocations;
* `elapsedMs n` is the elapsed monotonic time (in ms) read during the
  budget check of attempt `n` — the only place where the clock affects
  control flow;
* `RunStats` counts `table_loader` calls, `commit_fn` calls,
  `status_check_fn` calls, and `time.sleep` calls.

The fuel starts at `max_attempts`; the loop recurses only while
`attempt < max_attempts`, so the fuel never runs out on a real execution
(the fuel-0 branch is unreachable from `run_with_commit_retries`). -/

structure RunStats where
  loaderCalls : Nat
  commitCalls : Nat
  statusCalls : Nat
  sleeps : Nat
deriving DecidableEq, Repr

inductive RunResult (α : Type) where
  /-- normal return: `some v` from a successful commit, `none` after an
  indeterminate commit was confirmed by a status check. -/
  | ok : Option α → RunResult α
  /-- the original exception, re-raised unchanged. -/
  | raised : Exc → RunResult α
  /-- the synthesized retries-exhausted `RuntimeError`, wrapping its cause. -/
  | exhausted : Exc → RunResult α
deriving DecidableEq, Repr

/-- `_retry_budget_exhausted` (the short-circuit order matches the source:
the attempt count is checked before the clock is read). -/
def _retry_budget_exhausted (cfg : CommitRetryConfig) (attempt : Int)
    (elapsed_ms : ℚ) : Bool :=
  if cfg.max_attempts ≤ attempt then true
  else decide ((cfg.total_timeout_ms : ℚ) ≤ elapsed_ms)

/-- One execution of the `for attempt in range(1, n+1)` loop body chain in
`_run_status_checks`: `idx` is the global index of the next status-check
call, `attempt` the loop variable, and the fuel equals the remaining loop
iterations.  Returns `(confirmed, polls made, sleeps made)`; every poll
also calls `table_loader` once. -/
def statusGo (f : Nat → Bool) (total : Nat) : Nat → Nat → Nat → Bool × Nat × Nat
  | _, _, 0 => (false, 0, 0)
  | idx, attempt, fuel + 1 =>
    if f idx then (true, 1, 0)
    else if total ≤ attempt then (false, 1, 0)
    else
      let r := statusGo f total (idx + 1) (attempt + 1) fuel
      (r.1, r.2.1 + 1, r.2.2 + 1)

/-- `_run_status_checks`, given the number of status-check calls already
made (`sIdx`). -/
def runStatusChecks (f : Nat → Bool) (sIdx : Nat) (total : Nat) :
    Bool × Nat × Nat :=
  statusGo f total (sIdx + 1) 1 total

def dummyExc : Exc := ⟨⟨"", "", none, none⟩, []⟩

/-- The `while True` loop of `run_with_commit_retries`.  `attempt0` is the
number of attempts already made, `sIdx` the number of status-check calls
already made, `st` the statistics so far. -/
def retryLoop {α : Type} (commit : Nat → Except Exc α) (sc : Option (Nat → Bool))
    (elapsedMs : Nat → ℚ) (cfg : CommitRetryConfig) :
    Nat → Nat → RunStats → Nat → RunResult α × RunStats
  | _, _, st, 0 => (RunResult.exhausted dummyExc, st)
  | attempt0, sIdx, st, fuel + 1 =>
    let attempt := attempt0 + 1
    let st1 : RunStats :=
      { st with loaderCalls := st.loaderCalls + 1, commitCalls := st.commitCalls + 1 }
    match commit attempt with
    | Except.ok v => (RunResult.ok (some v), st1)
    | Except.error exc =>
      if is_retryable_commit_failed exc then
        if _retry_budget_exhausted cfg (attempt : Int) (elapsedMs attempt) then
          (RunResult.exhausted exc, st1)
        else
          retryLoop commit sc elapsedMs cfg attempt sIdx
            { st1 with sleeps := st1.sleeps + 1 } fuel
      else if is_unknown_commit_state exc then
        match sc with
        | some f =>
          let r := runStatusChecks f sIdx cfg.status_check_num_retries.toNat
          let st2 : RunStats :=
            { st1 with
              loaderCalls := st1.loaderCalls + r.2.1,
              statusCalls := st1.statusCalls + r.2.1,
              sleeps := st1.sleeps + r.2.2 }
          if r.1 then (RunResult.ok none, st2)
          else if _retry_budget_exhausted cfg (attempt : Int) (elapsedMs attempt) then
            (RunResult.exhausted exc, st2)
          else
            retryLoop commit sc elapsedMs cfg attempt (sIdx + r.2.1)
              { st2 with sleeps := st2.sleeps + 1 } fuel
        | none =>
          if _retry_budget_exhausted cfg (attempt : Int) (elapsedMs attempt) then
            (RunResult.exhausted exc, st1)
          else
            retryLoop commit sc elapsedMs cfg attempt sIdx
              { st1 with sleeps := st1.sleeps + 1 } fuel
      else (RunResult.raised exc, st1)

/-- `run_with_commit_retries`. -/
def run_with_commit_retries {α : Type} (commit : Nat → Except Exc α)
    (sc : Option (Nat → Bool)) (elapsedMs : Nat → ℚ) (cfg : CommitRetryConfig) :
    RunResult α × RunStats :=
  retryLoop commit sc elapsedMs cfg 0 0 ⟨0, 0, 0, 0⟩ cfg.max_attempts.toNat

/-! ## Commit-gated checkpoint manager (`target.py`)

A Singer STATE value is modelled as a flat association list (a structural
stand-in for the nested JSON mapping; the code only needs structural
equality and Python truthiness, where the empty mapping `{}` is falsy).
The target's state tracks `_latest_state`, `_last_committed_state`, the
sequence of values emitted to stdout by the base class's writer, and the
sequence of values written to the state file.  `observedHist` is a ghost
field recording every value ever assigned to `_latest_state`. -/

abbrev StateVal := List (String × String)

structure TgtState where
  _latest_state : Option StateVal
  _last_committed_state : Option StateVal
  emitted : List StateVal
  persisted : List StateVal
  observedHist : List StateVal
deriving DecidableEq, Repr

/-- The state of a freshly constructed target before `_load_persisted_state`
runs: no STATE observed, nothing committed, nothing emitted or persisted. -/
def initTgtState : TgtState := ⟨none, none, [], [], []⟩

/-- `_persist_state` (the successful path; persistence failures are caught
and change nothing, which coincides with `enabled = false` here). -/
def _persist_state (enabled : Bool) (state : StateVal) (s : TgtState) : TgtState :=
  if enabled then { s with persisted := s.persisted ++ [state] } else s

/-- `_write_state_message`: skip when `state` equals `_last_committed_state`;
otherwise emit via the base class, record the commit, and persist. -/
def _write_state_message (enabled : Bool) (state : StateVal) (s : TgtState) : TgtState :=
  if s._last_committed_state = some state then s
  else
    let s := { s with emitted := s.emitted ++ [state] }
    let s := { s with _last_committed_state := some state }
    _persist_state enabled state s

/-- `_process_state_message`, applied to the `value` of a STATE message:
cache it without emitting. -/
def _process_state_message (v : StateVal) (s : TgtState) : TgtState :=
  if s._latest_state = some v then s
  else { s with _latest_state := some v, observedHist := s.observedHist ++ [v] }

/-- `record_state_after_commit` (the `stream_name` argument only feeds a
log line).  Note the Python guard `if not self._latest_state` is a
truthiness test: the empty mapping is treated like an absent state. -/
def record_state_after_commit (enabled : Bool) (s : TgtState) : TgtState :=
  match s._latest_state with
  | none => s
  | some v =>
    if v = [] then s
    else if s._last_committed_state = some v then s
    else
      let s := _write_state_message enabled v s
      let s := _persist_state enabled v s
      { s with _last_committed_state := some v }

/-- What `_load_persisted_state` finds on disk: no file, a file that fails
to read or parse, or a successfully parsed value. -/
inductive FileContent where
  | absent
  | unreadable
  | value (v : StateVal)
deriving DecidableEq, Repr

/-- `_load_persisted_state`: on a readable non-empty value, emit it and set
`_last_committed_state`; every failure path is a no-op (non-fatal). -/
def _load_persisted_state (enabled : Bool) (file : FileContent) (s : TgtState) : TgtState :=
  if !enabled then s
  else
    match file with
    | FileContent.absent => s
    | FileContent.unreadable => s
    | FileContent.value v =>
      if v = [] then s
      else
        let s := _write_state_message enabled v s
        { s with _last_committed_state := some v }

/-! ### Operation sequences over the checkpoint state -/

inductive COp where
  /-- `_process_state_message` with a STATE value. -/
  | observe (v : StateVal)
  /-- `record_state_after_commit`. -/
  | commitSucceeded
  /-- `_write_state_message` called with an explicit value. -/
  | writeState (v : StateVal)
deriving DecidableEq, Repr

def stepOp (enabled : Bool) (s : TgtState) : COp → TgtState
  | COp.observe v => _process_state_message v s
  | COp.commitSucceeded => record_state_after_commit enabled s
  | COp.writeState v => _write_state_message enabled v s

def runOps (enabled : Bool) : TgtState → List COp → TgtState
  | s, [] => s
  | s, op :: ops => runOps enabled (stepOp enabled s op) ops

/-- `_last_committed_state` is absent or a previously observed value. -/
def CommittedObserved (s : TgtState) : Prop :=
  s._last_committed_state = none ∨
    ∃ v ∈ s.observedHist, s._last_committed_state = some v

instance (s : TgtState) : Decidable (CommittedObserved s) := by
  unfold CommittedObserved; infer_instance

/-- Auxiliary invariant: the cached `_latest_state` is absent or is covered
by the observation history. -/
def LatestObserved (s : TgtState) : Prop :=
  s._latest_state = none ∨ ∃ v ∈ s.observedHist, s._latest_state = some v

/-- An operation is a repository call when any `_write_state_message` it
performs passes the currently cached `_latest_state` (this is how both
`record_state_after_commit` and the startup/framework paths invoke it). -/
def goodStep (s : TgtState) : COp → Bool
  | COp.writeState v => s._latest_state == some v
  | _ => true

def goodOps (enabled : Bool) : TgtState → List COp → Bool
  | _, [] => true
  | s, op :: ops => goodStep s op && goodOps enabled (stepOp enabled s op) ops

/-! ## Helper lemmas -/

theorem max_attempts_pos (cfg : CommitRetryConfig) : 1 ≤ cfg.max_attempts := by
  unfold CommitRetryConfig.max_attempts
  cases cfg.max_attempts_override <;> simp

theorem unknown_not_retryable (e : Exc) (h : is_unknown_commit_state e = true) :
    is_retryable_commit_failed e = false := by
  unfold is_unknown_commit_state at h
  unfold is_retryable_commit_failed
  by_cases hc : _is_commit_failed_exception e = true
  · simp [hc] at h
  · simp [Bool.not_eq_true] at hc
    simp [hc]

theorem record_state_already_committed (enabled : Bool) (s : TgtState)
    (x : StateVal) (hlatest : s._latest_state = some x)
    (hlc : s._last_committed_state = some x) :
    record_state_after_commit enabled s = s := by
  unfold record_state_after_commit
  rw [hlatest]
  by_cases hx : x = [] <;> simp [hx, hlc]

/-! ## Claim theorems -/

/-- C5: for every retry policy satisfying the documented constraints
(`maxRetries ≥ 0`, positive override when present), the effective maximum
attempt count equals `min (maxRetries+1) override` when the override is set
and smaller, equals `maxRetries+1` otherwise (override absent or not
smaller), and is always at least 1, including when `maxRetries = 0`. -/
theorem max_attempts_spec (cfg : CommitRetryConfig)
    (hr : 0 ≤ cfg.num_retries)
    (ho : ∀ o, cfg.max_attempts_override = some o → 1 ≤ o) :
    (∀ o, cfg.max_attempts_override = some o → o < cfg.num_retries + 1 →
        cfg.max_attempts = min (cfg.num_retries + 1) o) ∧
    (cfg.max_attempts_override = none →
        cfg.max_attempts = cfg.num_retries + 1) ∧
    (∀ o, cfg.max_attempts_override = some o → cfg.num_retries + 1 ≤ o →
        cfg.max_attempts = cfg.num_retries + 1) ∧
    1 ≤ cfg.max_attempts := by
  have hnone : cfg.max_attempts_override = none →
      cfg.max_attempts = cfg.num_retries + 1 := by
    intro hov
    unfold CommitRetryConfig.max_attempts
    rw [hov]
    dsimp only
    omega
  have hsome : ∀ o, cfg.max_attempts_override = some o →
      cfg.max_attempts = min (max 1 (cfg.num_retries + 1)) (max 1 o) := by
    intro o hov
    unfold CommitRetryConfig.max_attempts
    rw [hov]
  refine ⟨?_, hnone, ?_, ?_⟩
  · intro o hov hlt
    have h2 := hsome o hov
    have h1 := ho o hov
    omega
  · intro o hov hle
    have h2 := hsome o hov
    have h1 := ho o hov
    omega
  · rcases hov : cfg.max_attempts_override with _ | o
    · have h2 := hnone hov
      omega
    · have h2 := hsome o hov
      have h1 := ho o hov
      omega

theorem max_attempts_spec_witness :
    (0 : Int) ≤ (CommitRetryConfig.mk 3 1 10 10000 2 0 2 1 10 none).num_retries ∧
    1 ≤ (CommitRetryConfig.mk 3 1 10 10000 2 0 2 1 10 none).max_attempts :=
  ⟨by decide,
   (max_attempts_spec (CommitRetryConfig.mk 3 1 10 10000 2 0 2 1 10 none)
      (by decide) (fun o h => Option.noConfusion h)).2.2.2⟩

/-- C10: when the most recently observed checkpoint is the empty mapping
(a present STATE value), `record_state_after_commit` is a no-op — nothing
is emitted or persisted and `_last_committed_state` is unchanged — because
the guard tests Python truthiness of the cached state, not its presence. -/
theorem record_state_empty_latest_noop (enabled : Bool) (s : TgtState)
    (h : s._latest_state = some []) :
    record_state_after_commit enabled s = s := by
  unfold record_state_after_commit
  rw [h]
  simp

theorem record_state_empty_latest_noop_witness :
    (_process_state_message [] initTgtState)._latest_state = some [] ∧
      record_state_after_commit true (_process_state_message [] initTgtState) =
        _process_state_message [] initTgtState :=
  ⟨by decide, record_state_empty_latest_noop true _ (by decide)⟩

/-- C7 (code evaluated at the failing input): an error whose class is named
`SSLError`, with no message, no HTTP status and no cause chain, is NOT
classified as indeterminate, although the spec's TLS-error token requires
it to be: the `"ssLError"` entry of `_NETWORK_ERROR_NAMES` contains an
upper-case letter and is tested for containment in the *lower-cased* class
name, so it can never match anything. -/
theorem sslerror_not_classified_indeterminate :
    is_unknown_commit_state ⟨⟨"SSLError", "", none, none⟩, []⟩ = false := by
  decide

/-- C6 counterexample: the policy `minWaitMs = 2`, `maxWaitMs = 10`,
`backoffMultiplier = 1/2`, `jitter = 0` satisfies every §3 constraint
(`minWaitMs`/`maxWaitMs` positive with min ≤ max, multiplier ≥ 0), yet the
computed delay strictly decreases from attempt 1 to attempt 2, so
`compute_backoff` is not non-decreasing in the attempt for every such
policy. -/
theorem compute_backoff_not_monotone :
    compute_backoff 2 2 10 (1/2) 0 0 < compute_backoff 1 2 10 (1/2) 0 0 := by
  norm_num [compute_backoff]

/-- C6 amended: for every policy with `minWaitMs`/`maxWaitMs` positive,
`min ≤ max` and `backoffMultiplier ≥ 1` (rather than ≥ 0), and `jitter = 0`:
`compute_backoff` is deterministic (independent of the random draw),
non-decreasing in the attempt, never exceeds `maxWaitMs` converted to
seconds, and once it reaches `maxWaitMs` it stays there (saturation). -/
theorem compute_backoff_monotone_bounded (minw maxw : Int) (m : ℚ)
    (hminpos : 0 < minw) (hmaxpos : 0 < maxw) (_hminmax : minw ≤ maxw)
    (hm : 1 ≤ m) :
    (∀ a u u', compute_backoff a minw maxw m 0 u =
        compute_backoff a minw maxw m 0 u') ∧
    (∀ a a' u, a ≤ a' →
        compute_backoff a minw maxw m 0 u ≤ compute_backoff a' minw maxw m 0 u) ∧
    (∀ a u, compute_backoff a minw maxw m 0 u ≤ (maxw : ℚ) / 1000) ∧
    (∀ a a' u, a ≤ a' → compute_backoff a minw maxw m 0 u = (maxw : ℚ) / 1000 →
        compute_backoff a' minw maxw m 0 u = (maxw : ℚ) / 1000) := by
  have hform : ∀ (a : Int) (u : ℚ), compute_backoff a minw maxw m 0 u =
      max 0 (min ((minw : ℚ) * m ^ (max 1 a - 1).toNat) (maxw : ℚ)) / 1000 := by
    intro a u
    unfold compute_backoff
    simp
  have hdet : ∀ a u u', compute_backoff a minw maxw m 0 u =
      compute_backoff a minw maxw m 0 u' := by
    intro a u u'
    rw [hform, hform]
  have hmono : ∀ a a' u, a ≤ a' →
      compute_backoff a minw maxw m 0 u ≤ compute_backoff a' minw maxw m 0 u := by
    intro a a' u haa
    rw [hform, hform]
    have hexp : (max 1 a - 1).toNat ≤ (max 1 a' - 1).toNat := by omega
    have hpow : m ^ (max 1 a - 1).toNat ≤ m ^ (max 1 a' - 1).toNat :=
      pow_le_pow_right₀ hm hexp
    have hminw : (0 : ℚ) ≤ (minw : ℚ) := by exact_mod_cast le_of_lt hminpos
    have hbase : (minw : ℚ) * m ^ (max 1 a - 1).toNat ≤
        (minw : ℚ) * m ^ (max 1 a' - 1).toNat :=
      mul_le_mul_of_nonneg_left hpow hminw
    have h1000 : (0 : ℚ) ≤ 1000 := by norm_num
    exact div_le_div_of_nonneg_right
      (max_le_max le_rfl (min_le_min hbase le_rfl)) h1000
  have hbound : ∀ a u, compute_backoff a minw maxw m 0 u ≤ (maxw : ℚ) / 1000 := by
    intro a u
    rw [hform]
    have hmaxw : (0 : ℚ) ≤ (maxw : ℚ) := by exact_mod_cast le_of_lt hmaxpos
    have h1000 : (0 : ℚ) ≤ 1000 := by norm_num
    exact div_le_div_of_nonneg_right
      (max_le hmaxw (min_le_right _ _)) h1000
  refine ⟨hdet, hmono, hbound, ?_⟩
  intro a a' u haa hsat
  exact le_antisymm (hbound a' u) (hsat ▸ hmono a a' u haa)

theorem compute_backoff_monotone_bounded_witness :
    (0 : Int) < 2 ∧ (0 : Int) < 10 ∧ (2 : Int) ≤ 10 ∧ (1 : ℚ) ≤ 2 ∧
    compute_backoff 1 2 10 2 0 0 ≤ (10 : ℚ) / 1000 :=
  ⟨by decide, by decide, by decide, by norm_num,
   (compute_backoff_monotone_bounded 2 10 2 (by decide) (by decide) (by decide)
      (by norm_num)).2.2.1 1 0⟩

/-- C2 counterexample: after observing the checkpoint `[("a", "1")]` (which
differs from the absent last-committed state), one
`record_state_after_commit` call writes the value to disk twice — once
inside `_write_state_message` and once more directly — not exactly once as
claimed. -/
theorem record_state_double_persist :
    (record_state_after_commit true
        (_process_state_message [("a", "1")] initTgtState)).persisted =
      [[("a", "1")], [("a", "1")]] := by
  decide

/-- C2 amended: after the manager observes a non-empty checkpoint `x` that
differs from the last committed state, one `record_state_after_commit` call
emits `x` exactly once, persists `x` exactly twice (once via the emission
helper, once directly), and sets `_last_committed_state` to `x`; a second
call with no new observation changes nothing (emits nothing, persists
nothing). -/
theorem record_state_after_commit_spec (x : StateVal) (s : TgtState)
    (hx : x ≠ []) (hlatest : s._latest_state = some x)
    (hdiff : s._last_committed_state ≠ some x) :
    (record_state_after_commit true s).emitted = s.emitted ++ [x] ∧
    (record_state_after_commit true s).persisted = s.persisted ++ [x, x] ∧
    (record_state_after_commit true s)._last_committed_state = some x ∧
    record_state_after_commit true (record_state_after_commit true s) =
      record_state_after_commit true s := by
  have hs : record_state_after_commit true s =
      { s with emitted := s.emitted ++ [x],
               persisted := s.persisted ++ [x] ++ [x],
               _last_committed_state := some x } := by
    unfold record_state_after_commit _write_state_message _persist_state
    rw [hlatest]
    simp [hx, hdiff]
  refine ⟨by rw [hs], by rw [hs]; simp, by rw [hs], ?_⟩
  rw [hs]
  exact record_state_already_committed true _ x hlatest rfl

theorem record_state_after_commit_spec_witness :
    ([("a", "1")] : StateVal) ≠ [] ∧
    (_process_state_message [("a", "1")] initTgtState)._latest_state =
      some [("a", "1")] ∧
    (_process_state_message [("a", "1")] initTgtState)._last_committed_state ≠
      some [("a", "1")] ∧
    (record_state_after_commit true
        (_process_state_message [("a", "1")] initTgtState)).emitted =
      (_process_state_message [("a", "1")] initTgtState).emitted ++ [[("a", "1")]] :=
  ⟨by decide, by decide, by decide,
   (record_state_after_commit_spec [("a", "1")]
      (_process_state_message [("a", "1")] initTgtState)
      (by decide) (by decide) (by decide)).1⟩

/-- C8 counterexample: with persistence enabled and a readable non-empty
persisted checkpoint on disk, startup loading sets only
`_last_committed_state`; `_latest_state` (the latest-observed baseline) is
left absent, contrary to the claim that both are set to the loaded value. -/
theorem load_persisted_state_latest_unset :
    (_load_persisted_state true (FileContent.value [("a", "1")])
        initTgtState)._latest_state = none ∧
    (_load_persisted_state true (FileContent.value [("a", "1")])
        initTgtState)._last_committed_state = some [("a", "1")] := by
  decide

/-- C8 amended: at startup, when persistence is enabled and the persisted
checkpoint file exists and holds a non-empty value `v`, the target loads
it, immediately emits it (and re-persists it), and sets
`_last_committed_state` to `v` — while the latest-observed baseline
`_latest_state` stays absent; a read or parse failure during load is
non-fatal and leaves the fresh state unchanged. -/
theorem load_persisted_state_spec (v : StateVal) (hv : v ≠ []) :
    (_load_persisted_state true (FileContent.value v) initTgtState).emitted = [v] ∧
    (_load_persisted_state true (FileContent.value v) initTgtState).persisted = [v] ∧
    (_load_persisted_state true (FileContent.value v)
        initTgtState)._last_committed_state = some v ∧
    (_load_persisted_state true (FileContent.value v)
        initTgtState)._latest_state = none ∧
    _load_persisted_state true FileContent.unreadable initTgtState = initTgtState ∧
    _load_persisted_state true FileContent.absent initTgtState = initTgtState := by
  unfold _load_persisted_state _write_state_message _persist_state initTgtState
  simp [hv]

theorem load_persisted_state_spec_witness :
    ([("a", "1")] : StateVal) ≠ [] ∧
    (_load_persisted_state true (FileContent.value [("a", "1")])
        initTgtState).emitted = [[("a", "1")]] :=
  ⟨by decide, (load_persisted_state_spec [("a", "1")] (by decide)).1⟩

/-! ### Field-effect lemmas for the checkpoint operations (used for C9) -/

theorem write_state_latest_hist (enabled : Bool) (x : StateVal) (s : TgtState) :
    (_write_state_message enabled x s)._latest_state = s._latest_state ∧
    (_write_state_message enabled x s).observedHist = s.observedHist := by
  unfold _write_state_message _persist_state
  by_cases hlc : s._last_committed_state = some x <;> cases enabled <;> simp [hlc]

theorem write_state_lc (enabled : Bool) (x : StateVal) (s : TgtState) :
    (_write_state_message enabled x s)._last_committed_state =
        s._last_committed_state ∨
    (_write_state_message enabled x s)._last_committed_state = some x := by
  unfold _write_state_message _persist_state
  by_cases hlc : s._last_committed_state = some x
  · left; simp [hlc]
  · right; cases enabled <;> simp [hlc]

theorem record_state_latest_hist (enabled : Bool) (s : TgtState) :
    (record_state_after_commit enabled s)._latest_state = s._latest_state ∧
    (record_state_after_commit enabled s).observedHist = s.observedHist := by
  unfold record_state_after_commit _write_state_message _persist_state
  rcases hl : s._latest_state with _ | v
  · exact ⟨hl, rfl⟩
  · by_cases hv : v = [] <;> by_cases hlc : s._last_committed_state = some v <;>
      cases enabled <;> simp [hv, hlc, hl]

theorem record_state_lc (enabled : Bool) (s : TgtState) :
    (record_state_after_commit enabled s)._last_committed_state =
        s._last_committed_state ∨
    (record_state_after_commit enabled s)._last_committed_state =
        s._latest_state := by
  unfold record_state_after_commit _write_state_message _persist_state
  rcases hl : s._latest_state with _ | v
  · left; rfl
  · by_cases hv : v = []
    · left; simp [hv]
    · by_cases hlc : s._last_committed_state = some v
      · left; simp [hv, hlc]
      · right; cases enabled <;> simp [hv, hlc]

theorem stepOp_latest_hist (enabled : Bool) (s : TgtState) (op : COp) :
    ((stepOp enabled s op)._latest_state = s._latest_state ∧
      (stepOp enabled s op).observedHist = s.observedHist) ∨
    (∃ v, (stepOp enabled s op)._latest_state = some v ∧
      (stepOp enabled s op).observedHist = s.observedHist ++ [v]) := by
  cases op with
  | observe v =>
    simp only [stepOp]
    unfold _process_state_message
    by_cases hv : s._latest_state = some v
    · left; simp [hv]
    · right; exact ⟨v, by simp [hv], by simp [hv]⟩
  | commitSucceeded =>
    exact Or.inl (record_state_latest_hist enabled s)
  | writeState v =>
    exact Or.inl (write_state_latest_hist enabled v s)

theorem stepOp_lc (enabled : Bool) (s : TgtState) (op : COp)
    (hg : goodStep s op = true) :
    (stepOp enabled s op)._last_committed_state = s._last_committed_state ∨
    ((stepOp enabled s op)._last_committed_state = s._latest_state ∧
      (stepOp enabled s op)._latest_state = s._latest_state ∧
      (stepOp enabled s op).observedHist = s.observedHist) := by
  cases op with
  | observe v =>
    left
    simp only [stepOp]
    unfold _process_state_message
    by_cases hv : s._latest_state = some v
    · rw [if_pos hv]
    · rw [if_neg hv]
  | commitSucceeded =>
    rcases record_state_lc enabled s with h | h
    · left; exact h
    · right
      exact ⟨h, (record_state_latest_hist enabled s).1,
             (record_state_latest_hist enabled s).2⟩
  | writeState v =>
    have hv : s._latest_state = some v := by
      simp only [goodStep, beq_iff_eq] at hg
      exact hg
    simp only [stepOp]
    rcases write_state_lc enabled v s with h | h
    · left; exact h
    · right
      exact ⟨by rw [h, hv], (write_state_latest_hist enabled v s).1,
             (write_state_latest_hist enabled v s).2⟩

theorem stepOp_preserves_inv (enabled : Bool) (s : TgtState) (op : COp)
    (h1 : LatestObserved s) (h2 : CommittedObserved s)
    (hg : goodStep s op = true) :
    LatestObserved (stepOp enabled s op) ∧
      CommittedObserved (stepOp enabled s op) := by
  simp only [LatestObserved, CommittedObserved] at h1 h2 ⊢
  have hlh := stepOp_latest_hist enabled s op
  have hlc := stepOp_lc enabled s op hg
  constructor
  · rcases hlh with ⟨hl, hh⟩ | ⟨v, hl, hh⟩
    · rw [hl, hh]
      exact h1
    · right
      exact ⟨v, by rw [hh]; exact List.mem_append_right _ (by simp), hl⟩
  · rcases hlc with h | ⟨h, _, _⟩
    · rcases h2 with h2 | ⟨w, hw, hwlc⟩
      · left; rw [h]; exact h2
      · right
        refine ⟨w, ?_, by rw [h]; exact hwlc⟩
        rcases hlh with ⟨_, hh⟩ | ⟨v, _, hh⟩
        · rw [hh]; exact hw
        · rw [hh]; exact List.mem_append_left _ hw
    · rcases h1 with hnone | ⟨w, hw, hwl⟩
      · left; rw [h, hnone]
      · right
        refine ⟨w, ?_, by rw [h, hwl]⟩
        rcases hlh with ⟨_, hh⟩ | ⟨v, _, hh⟩
        · rw [hh]; exact hw
        · rw [hh]; exact List.mem_append_left _ hw

theorem runOps_preserves_inv (enabled : Bool) (ops : List COp) :
    ∀ s : TgtState, LatestObserved s → CommittedObserved s →
      goodOps enabled s ops = true →
      LatestObserved (runOps enabled s ops) ∧
        CommittedObserved (runOps enabled s ops) := by
  induction ops with
  | nil => exact fun s h1 h2 _ => ⟨h1, h2⟩
  | cons op ops ih =>
    intro s h1 h2 hg
    simp only [goodOps, Bool.and_eq_true] at hg
    simp only [runOps]
    have hp := stepOp_preserves_inv enabled s op h1 h2 hg.1
    exact ih (stepOp enabled s op) hp.1 hp.2 hg.2

/-- C9 counterexample: a single framework `_write_state_message` call with
a value that was never observed makes `_last_committed_state` a value that
was never assigned to `_latest_state`, so the invariant as claimed (over
all sequences of the three operations) fails. -/
theorem write_state_breaks_committed_observed :
    ¬ CommittedObserved
        (runOps true initTgtState [COp.writeState [("a", "1")]]) := by
  decide

/-- C9 amended: in every sequence of `_process_state_message`,
`record_state_after_commit` and `_write_state_message` operations in which
each `_write_state_message` call passes the currently cached latest state
(as every call site in the repository does), `_last_committed_state` is
always either absent or structurally equal to some value previously
assigned to `_latest_state`; moreover any further such operation either
leaves `_last_committed_state` unchanged or sets it to the currently
cached most-recent observation, so it never advances ahead of what was
observed and never regresses in observation order. -/
theorem committed_state_monotone (enabled : Bool) (ops : List COp)
    (h : goodOps enabled initTgtState ops = true) :
    CommittedObserved (runOps enabled initTgtState ops) ∧
    ∀ op : COp, goodStep (runOps enabled initTgtState ops) op = true →
      (stepOp enabled (runOps enabled initTgtState ops)
          op)._last_committed_state =
        (runOps enabled initTgtState ops)._last_committed_state ∨
      (stepOp enabled (runOps enabled initTgtState ops)
          op)._last_committed_state =
        (stepOp enabled (runOps enabled initTgtState ops) op)._latest_state := by
  have hrun := runOps_preserves_inv enabled ops initTgtState
    (Or.inl rfl) (Or.inl rfl) h
  refine ⟨hrun.2, ?_⟩
  intro op hg
  rcases stepOp_lc enabled (runOps enabled initTgtState ops) op hg with
    hsame | ⟨hl, hl2, _⟩
  · left; exact hsame
  · right; rw [hl, hl2]

theorem committed_state_monotone_witness :
    goodOps true initTgtState
        [COp.observe [("a", "1")], COp.commitSucceeded] = true ∧
    CommittedObserved (runOps true initTgtState
        [COp.observe [("a", "1")], COp.commitSucceeded]) :=
  ⟨by decide,
   (committed_state_monotone true
      [COp.observe [("a", "1")], COp.commitSucceeded] (by decide)).1⟩

/-- C3: every error from the commit function that is neither a retryable
conflict nor an indeterminate commit is re-raised as the exact same error
object (not wrapped) after exactly 1 commit call, one `table_loader` call,
no sleep and no status check — for any policy, optional status-check
function and clock. -/
theorem run_fatal_error_propagates {α : Type} (commit : Nat → Except Exc α)
    (sc : Option (Nat → Bool)) (elapsedMs : Nat → ℚ) (cfg : CommitRetryConfig)
    (e : Exc) (h1 : commit 1 = Except.error e)
    (hr : is_retryable_commit_failed e = false)
    (hu : is_unknown_commit_state e = false) :
    run_with_commit_retries commit sc elapsedMs cfg =
      (RunResult.raised e, ⟨1, 1, 0, 0⟩) := by
  have hpos : 1 ≤ cfg.max_attempts := max_attempts_pos cfg
  obtain ⟨k, hk⟩ : ∃ k, cfg.max_attempts.toNat = k + 1 :=
    ⟨cfg.max_attempts.toNat - 1, by omega⟩
  unfold run_with_commit_retries
  rw [hk]
  simp [retryLoop, h1, hr, hu]

theorem run_fatal_error_propagates_witness :
    (fun _ : Nat => (Except.error ⟨⟨"CommitFailedException", "Validation failed",
        none, none⟩, []⟩ : Except Exc Nat)) 1 =
      Except.error ⟨⟨"CommitFailedException", "Validation failed", none, none⟩, []⟩ ∧
    is_retryable_commit_failed
      ⟨⟨"CommitFailedException", "Validation failed", none, none⟩, []⟩ = false ∧
    is_unknown_commit_state
      ⟨⟨"CommitFailedException", "Validation failed", none, none⟩, []⟩ = false ∧
    run_with_commit_retries
        (fun _ : Nat => (Except.error ⟨⟨"CommitFailedException", "Validation failed",
            none, none⟩, []⟩ : Except Exc Nat))
        none (fun _ => 0)
        (CommitRetryConfig.mk 3 1 10 10000 2 0 2 1 10 none) =
      (RunResult.raised ⟨⟨"CommitFailedException", "Validation failed",
          none, none⟩, []⟩, ⟨1, 1, 0, 0⟩) :=
  ⟨rfl, by decide, by decide,
   run_fatal_error_propagates _ none (fun _ => 0)
     (CommitRetryConfig.mk 3 1 10 10000 2 0 2 1 10 none)
     _ rfl (by decide) (by decide)⟩

/-- C4: when the commit function raises an indeterminate ("commit state
unknown") error on its first attempt, a status-check function is supplied
whose first call returns true, and `statusCheckMaxRetries ≥ 1`, the engine
returns normally with no result value (`none`), the commit function is
called exactly once and the status-check function exactly once (the
`table_loader` runs twice: once for the attempt, once for the poll), with
no sleeps — for any policy meeting the hypothesis and any clock. -/
theorem run_unknown_status_confirmed {α : Type} (commit : Nat → Except Exc α)
    (f : Nat → Bool) (elapsedMs : Nat → ℚ) (cfg : CommitRetryConfig)
    (e : Exc) (h1 : commit 1 = Except.error e)
    (hu : is_unknown_commit_state e = true)
    (hf : f 1 = true)
    (hsc : 1 ≤ cfg.status_check_num_retries) :
    run_with_commit_retries commit (some f) elapsedMs cfg =
      (RunResult.ok none, ⟨2, 1, 1, 0⟩) := by
  have hr : is_retryable_commit_failed e = false := unknown_not_retryable e hu
  have hpos : 1 ≤ cfg.max_attempts := max_attempts_pos cfg
  obtain ⟨k, hk⟩ : ∃ k, cfg.max_attempts.toNat = k + 1 :=
    ⟨cfg.max_attempts.toNat - 1, by omega⟩
  obtain ⟨j, hj⟩ : ∃ j, cfg.status_check_num_retries.toNat = j + 1 :=
    ⟨cfg.status_check_num_retries.toNat - 1, by omega⟩
  unfold run_with_commit_retries
  rw [hk]
  simp [retryLoop, h1, hr, hu, runStatusChecks, hj, statusGo, hf]

theorem run_unknown_status_confirmed_witness :
    (fun _ : Nat => (Except.error ⟨⟨"CommitStateUnknownException",
        "Commit state unknown", none, none⟩, []⟩ : Except Exc Nat)) 1 =
      Except.error ⟨⟨"CommitStateUnknownException", "Commit state unknown",
        none, none⟩, []⟩ ∧
    is_unknown_commit_state ⟨⟨"CommitStateUnknownException",
      "Commit state unknown", none, none⟩, []⟩ = true ∧
    (fun _ : Nat => true) 1 = true ∧
    (1 : Int) ≤ (CommitRetryConfig.mk 3 1 10 10000 2 0 2 1 10 none).status_check_num_retries ∧
    run_with_commit_retries
        (fun _ : Nat => (Except.error ⟨⟨"CommitStateUnknownException",
            "Commit state unknown", none, none⟩, []⟩ : Except Exc Nat))
        (some fun _ => true) (fun _ => 0)
        (CommitRetryConfig.mk 3 1 10 10000 2 0 2 1 10 none) =
      (RunResult.ok none, ⟨2, 1, 1, 0⟩) :=
  ⟨rfl, by decide, rfl, by decide,
   run_unknown_status_confirmed _ (fun _ => true) (fun _ => 0)
     (CommitRetryConfig.mk 3 1 10 10000 2 0 2 1 10 none)
     _ rfl (by decide) rfl (by decide)⟩

/-- C1: when the commit function raises retryable conflict errors on
attempts 1 and 2 and succeeds on attempt 3, under a policy with
`maxRetries = 3` (no override) whose total timeout has not elapsed at
either budget check, the engine returns the third attempt's success value,
the `table_loader` is called exactly 3 times (once per attempt), and
exactly 2 backoff sleeps occur. -/
theorem run_conflicts_then_success {α : Type} (commit : Nat → Except Exc α)
    (sc : Option (Nat → Bool)) (elapsedMs : Nat → ℚ) (cfg : CommitRetryConfig)
    (e1 e2 : Exc) (v : α)
    (hnr : cfg.num_retries = 3) (hov : cfg.max_attempts_override = none)
    (h1 : commit 1 = Except.error e1)
    (hr1 : is_retryable_commit_failed e1 = true)
    (h2 : commit 2 = Except.error e2)
    (hr2 : is_retryable_commit_failed e2 = true)
    (h3 : commit 3 = Except.ok v)
    (ht1 : elapsedMs 1 < (cfg.total_timeout_ms : ℚ))
    (ht2 : elapsedMs 2 < (cfg.total_timeout_ms : ℚ)) :
    run_with_commit_retries commit sc elapsedMs cfg =
      (RunResult.ok (some v), ⟨3, 3, 0, 2⟩) := by
  have hma : cfg.max_attempts = 4 := by
    unfold CommitRetryConfig.max_attempts
    rw [hov, hnr]
    decide
  have hb1 : _retry_budget_exhausted cfg 1 (elapsedMs 1) = false := by
    unfold _retry_budget_exhausted
    rw [hma, if_neg (by norm_num)]
    exact decide_eq_false (not_le.mpr ht1)
  have hb2 : _retry_budget_exhausted cfg 2 (elapsedMs 2) = false := by
    unfold _retry_budget_exhausted
    rw [hma, if_neg (by norm_num)]
    exact decide_eq_false (not_le.mpr ht2)
  unfold run_with_commit_retries
  rw [hma, show ((4 : Int)).toNat = 4 from rfl]
  simp [retryLoop, h1, hr1, hb1, h2, hr2, hb2, h3]

theorem run_conflicts_then_success_witness :
    (CommitRetryConfig.mk 3 1 10 10000 2 0 2 1 10 none).num_retries = 3 ∧
    (CommitRetryConfig.mk 3 1 10 10000 2 0 2 1 10
        none).max_attempts_override = none ∧
    is_retryable_commit_failed ⟨⟨"CommitFailedException",
      "Requirement failed: branch main has changed", none, none⟩, []⟩ = true ∧
    run_with_commit_retries
        (fun n : Nat => if n < 3
          then (Except.error ⟨⟨"CommitFailedException",
            "Requirement failed: branch main has changed", none, none⟩, []⟩ :
              Except Exc Nat)
          else Except.ok 7)
        none (fun _ => 0)
        (CommitRetryConfig.mk 3 1 10 10000 2 0 2 1 10 none) =
      (RunResult.ok (some 7), ⟨3, 3, 0, 2⟩) :=
  ⟨rfl, rfl, by decide,
   run_conflicts_then_success
     (fun n : Nat => if n < 3
       then (Except.error ⟨⟨"CommitFailedException",
         "Requirement failed: branch main has changed", none, none⟩, []⟩ :
           Except Exc Nat)
       else Except.ok 7)
     none (fun _ => 0)
     (CommitRetryConfig.mk 3 1 10 10000 2 0 2 1 10 none)
     _ _ 7 rfl rfl rfl (by decide) rfl (by decide) rfl
     (by norm_num) (by norm_num)⟩

end TargetS3Tables
